import Mathlib

/-!
Verification development for the polls application
(`polls/models.py`, `polls/admin.py`, `polls/tests.py`).

Datetimes are embedded as integers counting seconds (Python `datetime`
has microsecond resolution; every property below is granularity
independent, so seconds suffice). `timedelta(days=1)` is 86400 seconds,
and `timedelta.days` is floor division of the signed difference by
86400, which `Int.fdiv` matches exactly. A nullable column or Python
`None` is `Option`. Methods that read the clock (`timezone.now()`)
take `now` as an explicit parameter.
-/

/-- Seconds in one day: `datetime.timedelta(days=1)`. -/
def secondsPerDay : Int := 86400

/-- `class Question(models.Model)`: `question_text = CharField(max_length=200)`,
`pub_date = DateTimeField("date published")`. The Python object can hold
`None` in `pub_date` (the test suite constructs such an instance), so the
field is embedded as `Option Int`. -/
structure Question where
  question_text : String
  pub_date : Option Int
deriving Repr, DecidableEq

/-- `Question.was_published_recently`:
`now = timezone.now(); return now - datetime.timedelta(days=1) <= self.pub_date <= now`.
With `pub_date = None` the chained comparison raises `TypeError`, embedded
as `none`. -/
def Question.was_published_recently (q : Question) (now : Int) : Option Bool :=
  match q.pub_date with
  | some p => some (decide (now - secondsPerDay ≤ p) && decide (p ≤ now))
  | none => none

/-- `Question.is_published`: `return self.pub_date <= timezone.now()`.
With `pub_date = None` the comparison raises `TypeError`, embedded as
`none`. -/
def Question.is_published (q : Question) (now : Int) : Option Bool :=
  match q.pub_date with
  | some p => some (decide (p ≤ now))
  | none => none

/-- `Question.days_since_publication`:
`if self.pub_date: return (timezone.now() - self.pub_date).days` else
`return None`. A `datetime` is always truthy and `None` is falsy, so the
branch tests nullness; `timedelta.days` floors the signed difference. -/
def Question.days_since_publication (q : Question) (now : Int) : Option Int :=
  match q.pub_date with
  | some p => some (Int.fdiv (now - p) secondsPerDay)
  | none => none

/-- Modelled from the spec: the framework-side field validation for the
non-nullable `DateTimeField` `pub_date` (Django's `full_clean`/save-time
validation code is not part of this repository's sources). Per the spec,
a `Question` "must have a non-null publication time (construction without
one is rejected)" with a validation error; validation fails exactly when
`pub_date` is null. -/
def Question.full_clean (q : Question) : Except String Unit :=
  match q.pub_date with
  | some _ => Except.ok ()
  | none => Except.error "This field cannot be null."

/-- `class Choice(models.Model)`: `question = ForeignKey(Question, CASCADE)`,
`choice_text = CharField(max_length=200)`, `votes = IntegerField(default=0)`.
`votes` is the in-memory attribute; `saved_votes` is the persisted row
value (`none` while the row has never been saved). -/
structure Choice where
  question : Question
  choice_text : String
  votes : Int
  saved_votes : Option Int
deriving Repr, DecidableEq

/-- `Choice(question=..., choice_text=...)`: field default `votes = 0`,
not yet persisted. -/
def Choice.new (q : Question) (text : String) : Choice :=
  { question := q, choice_text := text, votes := 0, saved_votes := none }

/-- `self.save()`: persists the in-memory vote count. -/
def Choice.save (c : Choice) : Choice :=
  { c with saved_votes := some c.votes }

/-- `Choice.increment_votes`: `self.votes += 1; self.save()`. -/
def Choice.increment_votes (c : Choice) : Choice :=
  Choice.save { c with votes := c.votes + 1 }

/-- `Choice.reset_votes`: `self.votes = 0; self.save()`. -/
def Choice.reset_votes (c : Choice) : Choice :=
  Choice.save { c with votes := 0 }

/-- The vote mutators exposed by `Choice`. -/
inductive VoteOp where
  | increment
  | reset
deriving Repr, DecidableEq

/-- Apply one vote mutator. -/
def Choice.apply_op (c : Choice) : VoteOp → Choice
  | VoteOp.increment => c.increment_votes
  | VoteOp.reset => c.reset_votes

/-- Apply a sequence of vote mutators in order. -/
def Choice.apply_ops (c : Choice) (ops : List VoteOp) : Choice :=
  ops.foldl Choice.apply_op c

/-- A stored row satisfies the index filter `pub_date__lte=now`: true when
the publication time exists and is not after `now` (a SQL NULL comparison
is never true). -/
def Question.published_by (q : Question) (now : Int) : Bool :=
  match q.pub_date with
  | some p => decide (p ≤ now)
  | none => false

/-- Sort key of a stored row for `order_by("-pub_date")`; rows reaching the
sort all passed the filter, so the default is never read. -/
def Question.pubKey (q : Question) : Int :=
  q.pub_date.getD 0

/-- Modelled from the spec: the polls index view (`polls/views.py` is not
among this repository's sources; only its tests are). Per the spec, "a
listing view excludes future-dated Questions and orders past ones
most-recent-first": keep the stored questions with publication time at or
before `now`, ordered by publication date descending. -/
def latest_question_list (stored : List Question) (now : Int) : List Question :=
  List.mergeSort (stored.filter (fun q => q.published_by now))
    (fun a b => decide (Question.pubKey b ≤ Question.pubKey a))

/-- `QuestionAdmin.has_add_permission`: `return False` for every request. -/
def QuestionAdmin.has_add_permission (request : String) : Bool :=
  false

/-- `QuestionAdmin.has_delete_permission`: `return False` for every request
and object (`obj=None` allowed). -/
def QuestionAdmin.has_delete_permission (request : String) (obj : Option Question) : Bool :=
  false

/-! Theorems about the claims. -/

/-- C1: for a Question with a non-null publication time, was_published_recently
returns true iff pub_date lies in the closed window from now minus 24h up to
now, and false exactly when pub_date is strictly more than 24h before now or
strictly after now. -/
theorem was_published_recently_iff_in_window (q : Question) (now p : Int)
    (h : q.pub_date = some p) :
    (q.was_published_recently now = some true ↔
        now - secondsPerDay ≤ p ∧ p ≤ now) ∧
      (q.was_published_recently now = some false ↔
        p < now - secondsPerDay ∨ now < p) := by
  unfold Question.was_published_recently
  rw [h]
  constructor
  · simp
  · simp only [Option.some.injEq, Bool.and_eq_false_iff, decide_eq_false_iff_not]
    omega

/-- C1 witness: a question published exactly at the current instant is
recently published, and one published 24h plus one second before now is not. -/
theorem was_published_recently_iff_in_window_witness :
    (Question.mk "w" (some 100)).was_published_recently 100 = some true ∧
      (Question.mk "w" (some (-86301))).was_published_recently 100 = some false :=
  ⟨((was_published_recently_iff_in_window (Question.mk "w" (some 100)) 100 100
      rfl).1).mpr (by decide),
    ((was_published_recently_iff_in_window (Question.mk "w" (some (-86301))) 100
      (-86301) rfl).2).mpr (by decide)⟩

/-- C2 counterexample: the claim that a Question with a null publication time
cannot be created is false: the test
test_days_since_publication_with_no_pub_date constructs Question(pub_date=None)
without any error and observes days_since_publication() is None on it. -/
theorem question_with_null_pub_date_is_created :
    (Question.mk "Q" none).pub_date = none ∧
      (Question.mk "Q" none).days_since_publication 0 = none :=
  ⟨rfl, rfl⟩

/-- C2 amended: in-memory construction with a null publication time succeeds;
it is model validation of the non-nullable pub_date field that fails with a
validation error, and it fails exactly when pub_date is null. -/
theorem full_clean_rejects_exactly_null_pub_date (q : Question) :
    (∃ e, q.full_clean = Except.error e) ↔ q.pub_date = none := by
  cases h : q.pub_date <;> simp [Question.full_clean, h]

/-- C3: for a Question with a non-null publication time, is_published returns
true iff the publication time is not after now. -/
theorem is_published_iff_not_future (q : Question) (now p : Int)
    (h : q.pub_date = some p) :
    q.is_published now = some true ↔ p ≤ now := by
  simp [Question.is_published, h]

/-- C3 witness: a question published one second ago is published. -/
theorem is_published_iff_not_future_witness :
    (Question.mk "w" (some 0)).is_published 1 = some true :=
  (is_published_iff_not_future (Question.mk "w" (some 0)) 1 0 rfl).mpr (by decide)

/-- C4: days_since_publication returns the floored whole-day count of the
difference from the publication time to now when a publication time is set,
and returns an absent value exactly when no publication time is set. -/
theorem days_since_publication_spec (q : Question) (now : Int) :
    (∀ p, q.pub_date = some p →
        q.days_since_publication now = some (Int.fdiv (now - p) secondsPerDay)) ∧
      (q.days_since_publication now = none ↔ q.pub_date = none) := by
  cases h : q.pub_date <;> simp [Question.days_since_publication, h]

/-- C4 witness: five days after publication the day count is 5, and with no
publication time the result is absent. -/
theorem days_since_publication_spec_witness :
    (Question.mk "w" (some 0)).days_since_publication 432000 = some 5 ∧
      (Question.mk "x" none).days_since_publication 0 = none :=
  ⟨((days_since_publication_spec (Question.mk "w" (some 0)) 432000).1 0
      rfl).trans (by decide),
    ((days_since_publication_spec (Question.mk "x" none) 0).2).mpr rfl⟩

/-- C5: increment_votes raises the vote count by one and persists it, and
reset_votes sets it to zero and persists it, from any starting state. -/
theorem increment_and_reset_votes (c : Choice) :
    (c.increment_votes).votes = c.votes + 1 ∧
      (c.increment_votes).saved_votes = some (c.votes + 1) ∧
      (c.reset_votes).votes = 0 ∧
      (c.reset_votes).saved_votes = some 0 := by
  simp [Choice.increment_votes, Choice.reset_votes, Choice.save]

/-- Applying one vote mutator preserves non-negativity of the vote count. -/
theorem votes_nonneg_apply_op (c : Choice) (op : VoteOp) (h : 0 ≤ c.votes) :
    0 ≤ (c.apply_op op).votes := by
  cases op <;>
    simp [Choice.apply_op, Choice.increment_votes, Choice.reset_votes,
      Choice.save] <;>
    omega

/-- Applying any sequence of vote mutators preserves non-negativity. -/
theorem votes_nonneg_apply_ops :
    ∀ (ops : List VoteOp) (c : Choice), 0 ≤ c.votes →
      0 ≤ (c.apply_ops ops).votes
  | [], c, h => by simpa [Choice.apply_ops] using h
  | op :: rest, c, h => by
      have h2 := votes_nonneg_apply_op c op h
      simpa [Choice.apply_ops] using
        votes_nonneg_apply_ops rest (c.apply_op op) h2

/-- C6: a fresh Choice has vote count 0, and any sequence of increment and
reset operations from the default keeps the vote count non-negative. -/
theorem votes_default_zero_and_nonneg (q : Question) (text : String)
    (ops : List VoteOp) :
    (Choice.new q text).votes = 0 ∧
      0 ≤ ((Choice.new q text).apply_ops ops).votes :=
  ⟨rfl, votes_nonneg_apply_ops ops (Choice.new q text) (by simp [Choice.new])⟩

/-- C7: the index listing contains exactly the stored questions whose
publication time is at or before now, with every future-dated question
excluded, ordered by publication date most-recent-first; as a multiset it
equals the filtered store. -/
theorem latest_question_list_spec (stored : List Question) (now : Int) :
    (∀ q, q ∈ latest_question_list stored now ↔
        q ∈ stored ∧ q.published_by now = true) ∧
      (latest_question_list stored now).Pairwise
        (fun a b => Question.pubKey b ≤ Question.pubKey a) ∧
      (latest_question_list stored now).Perm
        (stored.filter (fun q => q.published_by now)) := by
  unfold latest_question_list
  have hperm :=
    List.mergeSort_perm (stored.filter (fun q => q.published_by now))
      (fun a b => decide (Question.pubKey b ≤ Question.pubKey a))
  refine ⟨?_, ?_, hperm⟩
  · intro q
    rw [hperm.mem_iff, List.mem_filter]
  · have hs :
        (List.mergeSort (stored.filter (fun q => q.published_by now))
            (fun a b => decide (Question.pubKey b ≤ Question.pubKey a))).Pairwise
          (fun a b => decide (Question.pubKey b ≤ Question.pubKey a) = true) :=
      List.sorted_mergeSort
        (fun a b c h1 h2 => by
          simp only [decide_eq_true_eq] at h1 h2 ⊢
          exact le_trans h2 h1)
        (fun a b => by
          simp only [Bool.or_eq_true, decide_eq_true_eq]
          exact le_total (Question.pubKey b) (Question.pubKey a))
        (stored.filter (fun q => q.published_by now))
    exact hs.imp (fun h => by simpa using h)

/-- C8: the Question admin denies adding and deleting for every request and
every object, including the absent object. -/
theorem admin_add_and_delete_denied (request : String) (obj : Option Question) :
    QuestionAdmin.has_add_permission request = false ∧
      QuestionAdmin.has_delete_permission request obj = false :=
  ⟨rfl, rfl⟩

/-- C9: at the same current time, a recently published question is published. -/
theorem was_published_recently_implies_is_published (q : Question) (now : Int)
    (h : q.was_published_recently now = some true) :
    q.is_published now = some true := by
  cases hp : q.pub_date with
  | none => simp [Question.was_published_recently, hp] at h
  | some p =>
      simp only [Question.was_published_recently, hp, Option.some.injEq,
        Bool.and_eq_true, decide_eq_true_eq] at h
      simp [Question.is_published, hp, h.2]

/-- C9 witness: a question published exactly now is recently published and
hence published. -/
theorem was_published_recently_implies_is_published_witness :
    (Question.mk "w" (some 10)).was_published_recently 10 = some true ∧
      (Question.mk "w" (some 10)).is_published 10 = some true :=
  ⟨by decide,
    was_published_recently_implies_is_published (Question.mk "w" (some 10)) 10
      (by decide)⟩

/-- C10: for a question whose publication time is strictly after now,
days_since_publication returns a present value that is at most -1, because
the whole-day count floors toward negative infinity. -/
theorem days_since_publication_negative_for_future (q : Question) (now p : Int)
    (hp : q.pub_date = some p) (hf : now < p) :
    ∃ d, q.days_since_publication now = some d ∧ d ≤ -1 := by
  refine ⟨Int.fdiv (now - p) secondsPerDay,
    by simp [Question.days_since_publication, hp], ?_⟩
  have hneg : now - p < 0 := by omega
  have hlt : Int.fdiv (now - p) secondsPerDay < 0 :=
    Int.fdiv_neg' hneg (by decide)
  omega

/-- C10 witness: a question published one second in the future already has a
day count of -1. -/
theorem days_since_publication_negative_for_future_witness :
    ∃ d, (Question.mk "w" (some 1)).days_since_publication 0 = some d ∧
      d ≤ -1 :=
  days_since_publication_negative_for_future (Question.mk "w" (some 1)) 0 1 rfl
    (by decide)
